import Mathlib

/-!
Verification of the fabric-cli import flow validator and dispatcher.

The embedded code is `validate_import_args` together with its inner helper
`_check_required_param` from `src/fabric_cli/parsers/fab_parser_validators.py`,
and `exec_command` from `src/fabric_cli/commands/fs/fab_fs_import.py`.

Python `Namespace` fields become an explicit record of optional values;
Python truthiness on a list/string field becomes "present and non-empty".
A raised `FabricCLIError` becomes the error side of an `Except`.
-/

namespace FabricCli

/-- The parameter bag for the import command (an argparse `Namespace`):
`path` and `input` are repeatable flags holding lists of strings, the other
four are plain strings.  Any field may be absent (`none`). -/
structure Args where
  path : Option (List String)
  input : Option (List String)
  format : Option String
  config_file : Option String
  env : Option String
  params : Option String
deriving DecidableEq, Repr

/-- Python truthiness of an optional list value: absent and the empty
list are falsy, a non-empty list is truthy. -/
def truthyList (o : Option (List String)) : Bool :=
  match o with
  | none => false
  | some l => !l.isEmpty

/-- Python truthiness of an optional string value: absent and the empty
string are falsy, a non-empty string is truthy. -/
def truthyStr (o : Option String) : Bool :=
  match o with
  | none => false
  | some s => !s.isEmpty

/-- Modelled from the spec: the external error-message catalog
(`fabric_cli.errors.ErrorMessages.Common`, not under src/).  The catalog is
kept structural: each constructor records exactly the data the catalog
function receives, so "the error names parameter p, flow f and usage u"
is constructor equality. -/
inductive ErrorMessage where
  | import_mixed_flows_error : ErrorMessage
  | import_no_flow_specified_error : ErrorMessage
  | import_required_param_missing
      (param_display_name flow_name flow_usage : String) : ErrorMessage
deriving DecidableEq, Repr

/-- Modelled from the spec: the stable classification code
`fab_constant.ERROR_IMPORT_VALIDATION` (the `fab_constant` module is not
under src/; the spec only requires a stable code distinguishing import
validation failures). -/
def ERROR_IMPORT_VALIDATION : String := "ImportValidationError"

/-- A raised `FabricCLIError(message, status_code)`. -/
structure FabricCLIError where
  message : ErrorMessage
  status_code : String
deriving DecidableEq, Repr

/-- The Direct API flow usage string used in `validate_import_args`. -/
def direct_flow_usage : String :=
  "fab import <path> -i <input_path> [--format <format>]"

/-- The CICD flow usage string used in `validate_import_args`. -/
def cicd_flow_usage : String :=
  "fab import --config-file <config_path> --env <env_name> [-P <params>]"

/-- `is_direct_api_flow = args.path or args.input or args.format`
(as a branching condition: truthiness of the disjunction). -/
def is_direct_api_flow (args : Args) : Bool :=
  truthyList args.path || truthyList args.input || truthyStr args.format

/-- `is_cicd_flow = args.config_file or args.env or args.params`. -/
def is_cicd_flow (args : Args) : Bool :=
  truthyStr args.config_file || truthyStr args.env || truthyStr args.params

/-- The inner helper `_check_required_param`: given the (already fetched)
field value's truthiness, either raise the missing-parameter error or pass.
`none` means the check passed, `some e` means `raise e`. -/
def check_required_param (param_truthy : Bool)
    (param_display_name flow_name flow_usage : String) :
    Option FabricCLIError :=
  if !param_truthy then
    some ⟨ErrorMessage.import_required_param_missing
            param_display_name flow_name flow_usage,
          ERROR_IMPORT_VALIDATION⟩
  else
    none

/-- `validate_import_args` from `fab_parser_validators.py`: mixed-flow check
first, then the detected flow's required-field checks in fixed order, else
the no-flow error; on success the bag is returned unchanged. -/
def validate_import_args (args : Args) : Except FabricCLIError Args :=
  if is_direct_api_flow args && is_cicd_flow args then
    Except.error ⟨ErrorMessage.import_mixed_flows_error, ERROR_IMPORT_VALIDATION⟩
  else if is_direct_api_flow args then
    match check_required_param (truthyList args.path) "path" "Direct API" direct_flow_usage with
    | some e => Except.error e
    | none =>
      match check_required_param (truthyList args.input) "-i/--input" "Direct API" direct_flow_usage with
      | some e => Except.error e
      | none => Except.ok args
  else if is_cicd_flow args then
    match check_required_param (truthyStr args.config_file) "--config-file" "CICD" cicd_flow_usage with
    | some e => Except.error e
    | none =>
      match check_required_param (truthyStr args.env) "--env" "CICD" cicd_flow_usage with
      | some e => Except.error e
      | none => Except.ok args
  else
    Except.error ⟨ErrorMessage.import_no_flow_specified_error, ERROR_IMPORT_VALIDATION⟩

end FabricCli

namespace FabricCli

/-- Claim C1: whenever a Direct-flow signal field and a Config-flow signal
field are both non-empty, validation fails with the mixed-flows error, and
no missing-required-parameter error is ever produced for such a bag. -/
theorem validate_mixed_flows_before_required (args : Args)
    (hd : is_direct_api_flow args = true) (hc : is_cicd_flow args = true) :
    validate_import_args args =
      Except.error ⟨ErrorMessage.import_mixed_flows_error, ERROR_IMPORT_VALIDATION⟩ ∧
    ∀ p f u c, validate_import_args args ≠
      Except.error ⟨ErrorMessage.import_required_param_missing p f u, c⟩ := by
  have hmain : validate_import_args args =
      Except.error ⟨ErrorMessage.import_mixed_flows_error, ERROR_IMPORT_VALIDATION⟩ := by
    simp [validate_import_args, hd, hc]
  refine ⟨hmain, ?_⟩
  intro p f u c h
  rw [hmain] at h
  simp at h

/-- Claim C1 witness: a concrete bag with `path` and `config_file` both set
fails with the mixed-flows error. -/
theorem validate_mixed_flows_before_required_witness :
    validate_import_args
        ⟨some ["ws1.Workspace/nb1.Notebook"], none, none, some "/cfg.yml", none, none⟩ =
      Except.error ⟨ErrorMessage.import_mixed_flows_error, ERROR_IMPORT_VALIDATION⟩ ∧
    ∀ p f u c, validate_import_args
        ⟨some ["ws1.Workspace/nb1.Notebook"], none, none, some "/cfg.yml", none, none⟩ ≠
      Except.error ⟨ErrorMessage.import_required_param_missing p f u, c⟩ :=
  validate_mixed_flows_before_required _ (by decide) (by decide)

/-- Claim C2: for a Direct-flow candidate that is not a Config-flow
candidate, a missing `path` fails naming "path" with flow "Direct API" and
the Direct usage string (checked before `input`, so this is the error even
when `input` is also missing); otherwise a missing `input` fails naming
the input flag with the same flow and usage; otherwise validation succeeds. -/
theorem validate_direct_flow_required_params (args : Args)
    (hd : is_direct_api_flow args = true) (hc : is_cicd_flow args = false) :
    (truthyList args.path = false →
      validate_import_args args =
        Except.error ⟨ErrorMessage.import_required_param_missing
          "path" "Direct API" direct_flow_usage, ERROR_IMPORT_VALIDATION⟩) ∧
    (truthyList args.path = true → truthyList args.input = false →
      validate_import_args args =
        Except.error ⟨ErrorMessage.import_required_param_missing
          "-i/--input" "Direct API" direct_flow_usage, ERROR_IMPORT_VALIDATION⟩) ∧
    (truthyList args.path = true → truthyList args.input = true →
      validate_import_args args = Except.ok args) := by
  refine ⟨?_, ?_, ?_⟩ <;> intros <;>
    simp [validate_import_args, check_required_param, hd, hc, *]

/-- Claim C2 witness: the bag with only `input` set fails naming "path";
instantiated at a fully concrete Direct-flow candidate. -/
theorem validate_direct_flow_required_params_witness :
    validate_import_args ⟨none, some ["/path/to/input"], none, none, none, none⟩ =
      Except.error ⟨ErrorMessage.import_required_param_missing
        "path" "Direct API" direct_flow_usage, ERROR_IMPORT_VALIDATION⟩ :=
  (validate_direct_flow_required_params
      ⟨none, some ["/path/to/input"], none, none, none, none⟩
      (by decide) (by decide)).1 (by decide)

/-- Claim C3: for a Config-flow candidate that is not a Direct-flow
candidate, a missing `config_file` fails naming "--config-file" with flow
"CICD" and the Config usage string (checked before `env`); otherwise a
missing `env` fails naming "--env"; otherwise validation succeeds. -/
theorem validate_cicd_flow_required_params (args : Args)
    (hc : is_cicd_flow args = true) (hd : is_direct_api_flow args = false) :
    (truthyStr args.config_file = false →
      validate_import_args args =
        Except.error ⟨ErrorMessage.import_required_param_missing
          "--config-file" "CICD" cicd_flow_usage, ERROR_IMPORT_VALIDATION⟩) ∧
    (truthyStr args.config_file = true → truthyStr args.env = false →
      validate_import_args args =
        Except.error ⟨ErrorMessage.import_required_param_missing
          "--env" "CICD" cicd_flow_usage, ERROR_IMPORT_VALIDATION⟩) ∧
    (truthyStr args.config_file = true → truthyStr args.env = true →
      validate_import_args args = Except.ok args) := by
  refine ⟨?_, ?_, ?_⟩ <;> intros <;>
    simp [validate_import_args, check_required_param, hd, hc, *]

/-- Claim C3 witness: the bag with `config_file` set but `env` unset fails
naming "--env"; instantiated at a fully concrete Config-flow candidate. -/
theorem validate_cicd_flow_required_params_witness :
    validate_import_args ⟨none, none, none, some "/path/to/config.yml", none, none⟩ =
      Except.error ⟨ErrorMessage.import_required_param_missing
        "--env" "CICD" cicd_flow_usage, ERROR_IMPORT_VALIDATION⟩ :=
  (validate_cicd_flow_required_params
      ⟨none, none, none, some "/path/to/config.yml", none, none⟩
      (by decide) (by decide)).2.1 (by decide) (by decide)

/-- Claim C5: an optional field alone still selects its flow's required
checks: a bag whose only non-empty field is `format` fails naming "path"
with flow "Direct API", and a bag whose only non-empty field is `params`
fails naming "--config-file" with flow "CICD"; neither produces the
no-flow-specified error. -/
theorem validate_optional_field_alone_routes_flow (args : Args) :
    (truthyList args.path = false → truthyList args.input = false →
     truthyStr args.format = true → is_cicd_flow args = false →
      validate_import_args args =
        Except.error ⟨ErrorMessage.import_required_param_missing
          "path" "Direct API" direct_flow_usage, ERROR_IMPORT_VALIDATION⟩) ∧
    (truthyStr args.config_file = false → truthyStr args.env = false →
     truthyStr args.params = true → is_direct_api_flow args = false →
      validate_import_args args =
        Except.error ⟨ErrorMessage.import_required_param_missing
          "--config-file" "CICD" cicd_flow_usage, ERROR_IMPORT_VALIDATION⟩) := by
  constructor
  · intro hp hi hf hc
    simp [validate_import_args, check_required_param, is_direct_api_flow, hp, hi, hf, hc]
  · intro hcf he hpr hd
    simp [validate_import_args, check_required_param, is_cicd_flow, hcf, he, hpr, hd]

/-- Claim C5 witness: only `format` set fails naming "path", and only
`params` set fails naming "--config-file". -/
theorem validate_optional_field_alone_routes_flow_witness :
    validate_import_args ⟨none, none, some ".ipynb", none, none, none⟩ =
      Except.error ⟨ErrorMessage.import_required_param_missing
        "path" "Direct API" direct_flow_usage, ERROR_IMPORT_VALIDATION⟩ ∧
    validate_import_args ⟨none, none, none, none, none, some "k=v"⟩ =
      Except.error ⟨ErrorMessage.import_required_param_missing
        "--config-file" "CICD" cicd_flow_usage, ERROR_IMPORT_VALIDATION⟩ :=
  ⟨(validate_optional_field_alone_routes_flow
      ⟨none, none, some ".ipynb", none, none, none⟩).1
      (by decide) (by decide) (by decide) (by decide),
   (validate_optional_field_alone_routes_flow
      ⟨none, none, none, none, none, some "k=v"⟩).2
      (by decide) (by decide) (by decide) (by decide)⟩

/-- Claim C6: when all six fields are empty or absent, validation fails
with the no-flow-specified error, whose message is distinct from every
missing-parameter message. -/
theorem validate_no_flow_specified (args : Args)
    (hp : truthyList args.path = false) (hi : truthyList args.input = false)
    (hf : truthyStr args.format = false) (hcf : truthyStr args.config_file = false)
    (he : truthyStr args.env = false) (hpr : truthyStr args.params = false) :
    validate_import_args args =
      Except.error ⟨ErrorMessage.import_no_flow_specified_error, ERROR_IMPORT_VALIDATION⟩ ∧
    ∀ p f u, (ErrorMessage.import_no_flow_specified_error : ErrorMessage) ≠
      ErrorMessage.import_required_param_missing p f u := by
  constructor
  · simp [validate_import_args, is_direct_api_flow, is_cicd_flow,
      hp, hi, hf, hcf, he, hpr]
  · intro p f u h
    exact ErrorMessage.noConfusion h

/-- Claim C6 witness: the all-absent bag fails with the no-flow error. -/
theorem validate_no_flow_specified_witness :
    validate_import_args ⟨none, none, none, none, none, none⟩ =
      Except.error ⟨ErrorMessage.import_no_flow_specified_error, ERROR_IMPORT_VALIDATION⟩ ∧
    ∀ p f u, (ErrorMessage.import_no_flow_specified_error : ErrorMessage) ≠
      ErrorMessage.import_required_param_missing p f u :=
  validate_no_flow_specified ⟨none, none, none, none, none, none⟩
    (by decide) (by decide) (by decide) (by decide) (by decide) (by decide)

/-- Helper: `validate_import_args` either returns its argument unchanged or
raises some error; no other success value is possible. -/
theorem validate_ok_or_error (args : Args) :
    validate_import_args args = Except.ok args ∨
    ∃ e, validate_import_args args = Except.error e := by
  unfold validate_import_args check_required_param
  repeat' split
  all_goals first | (left; rfl) | (right; exact ⟨_, rfl⟩)

/-- Claim C7: the validator is pure: a bag that passes validation is
returned unchanged (`validate(bag) == bag`), and validating the returned
bag again yields the identical outcome as the first call. -/
theorem validate_pure_identity_idempotent (args b : Args)
    (h : validate_import_args args = Except.ok b) :
    b = args ∧ validate_import_args b = validate_import_args args := by
  rcases validate_ok_or_error args with hok | ⟨e, herr⟩
  · rw [hok] at h
    injection h with hba
    exact ⟨hba.symm, by rw [hba]⟩
  · rw [herr] at h
    exact Except.noConfusion h

/-- Claim C7 witness: a valid Direct-flow bag passes validation unchanged
and re-validates to the same outcome. -/
theorem validate_pure_identity_idempotent_witness :
    (⟨some ["ws1.Workspace/nb1.Notebook"], some ["/path/to/input"], none, none, none, none⟩ : Args) =
      ⟨some ["ws1.Workspace/nb1.Notebook"], some ["/path/to/input"], none, none, none, none⟩ ∧
    validate_import_args
        ⟨some ["ws1.Workspace/nb1.Notebook"], some ["/path/to/input"], none, none, none, none⟩ =
      validate_import_args
        ⟨some ["ws1.Workspace/nb1.Notebook"], some ["/path/to/input"], none, none, none, none⟩ :=
  validate_pure_identity_idempotent
    ⟨some ["ws1.Workspace/nb1.Notebook"], some ["/path/to/input"], none, none, none, none⟩
    ⟨some ["ws1.Workspace/nb1.Notebook"], some ["/path/to/input"], none, none, none, none⟩
    rfl

/-- Claim C8: every error raised by the validator — mixed flows, no flow
specified, and every missing-required-parameter error — carries the stable
status code `ERROR_IMPORT_VALIDATION`. -/
theorem validate_errors_carry_import_validation_code
    (args : Args) (e : FabricCLIError)
    (h : validate_import_args args = Except.error e) :
    e.status_code = ERROR_IMPORT_VALIDATION := by
  cases h1 : is_direct_api_flow args <;> cases h2 : is_cicd_flow args <;>
    cases h3 : truthyList args.path <;> cases h4 : truthyList args.input <;>
    cases h5 : truthyStr args.config_file <;> cases h6 : truthyStr args.env <;>
    simp [validate_import_args, check_required_param,
      h1, h2, h3, h4, h5, h6] at h <;>
    subst h <;> rfl

/-- Claim C8 witness: the mixed-flows error raised for a concrete mixed
bag carries the import-validation status code. -/
theorem validate_errors_carry_import_validation_code_witness :
    validate_import_args
        ⟨some ["ws1"], some ["/i"], none, some "/cfg.yml", some "production", none⟩ =
      Except.error ⟨ErrorMessage.import_mixed_flows_error, ERROR_IMPORT_VALIDATION⟩ ∧
    (⟨ErrorMessage.import_mixed_flows_error, ERROR_IMPORT_VALIDATION⟩ :
        FabricCLIError).status_code = ERROR_IMPORT_VALIDATION :=
  ⟨rfl,
   validate_errors_carry_import_validation_code
     ⟨some ["ws1"], some ["/i"], none, some "/cfg.yml", some "production", none⟩
     ⟨ErrorMessage.import_mixed_flows_error, ERROR_IMPORT_VALIDATION⟩
     rfl⟩

/-- Collapse an optional list field to `none` when it is falsy (absent or
empty), mirroring "an explicitly empty value is treated as absent". -/
def normList (o : Option (List String)) : Option (List String) :=
  if truthyList o then o else none

/-- Collapse an optional string field to `none` when it is falsy. -/
def normStr (o : Option String) : Option String :=
  if truthyStr o then o else none

/-- Replace every explicitly-empty field of a bag by an absent field. -/
def emptyToNone (args : Args) : Args :=
  ⟨normList args.path, normList args.input, normStr args.format,
   normStr args.config_file, normStr args.env, normStr args.params⟩

theorem truthyList_normList (o : Option (List String)) :
    truthyList (normList o) = truthyList o := by
  by_cases h : truthyList o = true
  · unfold normList
    rw [if_pos h]
  · rw [Bool.not_eq_true] at h
    unfold normList
    rw [h]
    rfl

theorem truthyStr_normStr (o : Option String) :
    truthyStr (normStr o) = truthyStr o := by
  by_cases h : truthyStr o = true
  · unfold normStr
    rw [if_pos h]
  · rw [Bool.not_eq_true] at h
    unfold normStr
    rw [h]
    rfl

/-- Helper: the validator treats a bag and its `emptyToNone` image exactly
alike: same branch taken and same error raised, with success returning the
respective input bag. -/
theorem validate_emptyToNone (args : Args) :
    validate_import_args (emptyToNone args) =
      Except.map emptyToNone (validate_import_args args) := by
  have hp : truthyList (emptyToNone args).path = truthyList args.path := by
    simp [emptyToNone, truthyList_normList]
  have hi : truthyList (emptyToNone args).input = truthyList args.input := by
    simp [emptyToNone, truthyList_normList]
  have hcf : truthyStr (emptyToNone args).config_file = truthyStr args.config_file := by
    simp [emptyToNone, truthyStr_normStr]
  have he : truthyStr (emptyToNone args).env = truthyStr args.env := by
    simp [emptyToNone, truthyStr_normStr]
  have hd : is_direct_api_flow (emptyToNone args) = is_direct_api_flow args := by
    simp [is_direct_api_flow, emptyToNone, truthyList_normList, truthyStr_normStr]
  have hc : is_cicd_flow (emptyToNone args) = is_cicd_flow args := by
    simp [is_cicd_flow, emptyToNone, truthyStr_normStr]
  cases h1 : is_direct_api_flow args <;> cases h2 : is_cicd_flow args <;>
    cases h3 : truthyList args.path <;> cases h4 : truthyList args.input <;>
    cases h5 : truthyStr args.config_file <;> cases h6 : truthyStr args.env <;>
    simp [validate_import_args, check_required_param, Except.map,
      hp, hi, hcf, he, hd, hc, h1, h2, h3, h4, h5, h6]

/-- Claim C9: field presence is uniform truthiness: replacing every
explicitly empty field of a bag by an absent one changes neither the
branch taken nor the error raised (success returns the respective bag);
in particular a bag with `path = []` and `input` non-empty fails naming
"path", and a bag whose only set field is `format = ""` fails with the
no-flow-specified error. -/
theorem validate_truthiness_uniform :
    (∀ args : Args, validate_import_args (emptyToNone args) =
        Except.map emptyToNone (validate_import_args args)) ∧
    validate_import_args ⟨some [], some ["/path/to/input"], none, none, none, none⟩ =
      Except.error ⟨ErrorMessage.import_required_param_missing
        "path" "Direct API" direct_flow_usage, ERROR_IMPORT_VALIDATION⟩ ∧
    validate_import_args ⟨none, none, some "", none, none, none⟩ =
      Except.error ⟨ErrorMessage.import_no_flow_specified_error, ERROR_IMPORT_VALIDATION⟩ :=
  ⟨validate_emptyToNone, rfl, rfl⟩

/-- Modelled from the spec: the hierarchy context type
(`fabric_cli.core.hiearchy.fab_hiearchy`, not under src/).  The dispatcher
only distinguishes whether the context is a single addressable `Item`
(`isinstance(context, Item)`); other element kinds stand for the remaining
subclasses of `FabricElement`. -/
inductive FabricElement where
  | item (id : String) : FabricElement
  | workspace (id : String) : FabricElement
deriving DecidableEq, Repr

/-- `isinstance(context, Item)`. -/
def isItem (context : FabricElement) : Bool :=
  match context with
  | FabricElement.item _ => true
  | FabricElement.workspace _ => false

/-- Shallow embedding of the effect of `exec_command`: which external
executor (if any) was invoked, together with the final state of the
parameter bag when the call returns. -/
inductive DispatchResult where
  | direct_executor (context : FabricElement) (args : Args) : DispatchResult
  | config_executor (args : Args) : DispatchResult
  | no_op (args : Args) : DispatchResult
deriving DecidableEq, Repr

/-- The single attribute assignment performed by `exec_command`:
`args.input = utils.process_nargs(args.input)`; every other field of the
`Namespace` is untouched. -/
def set_input (args : Args) (v : Option (List String)) : Args :=
  ⟨args.path, v, args.format, args.config_file, args.env, args.params⟩

/-- `exec_command` from `fab_fs_import.py`, parameterized by the external
normalization utility `utils.process_nargs` (from `fabric_cli.utils.fab_util`,
not under src/).  The optional `validate_args` callback attached to the
`Namespace` (the `hasattr` guard on the first line) is outside the bag
model and omitted.  Note the function raises nothing and has no `else`
after the `isinstance` check: a Direct-shape bag with a non-`Item` context
falls off the end of the function. -/
def exec_command (process_nargs : List String → List String)
    (args : Args) (context : FabricElement) : DispatchResult :=
  if truthyList args.path && truthyList args.input then
    let args1 := set_input args (some (process_nargs (args.input.getD [])))
    if isItem context then
      DispatchResult.direct_executor context args1
    else
      DispatchResult.no_op args1
  else if truthyStr args.config_file then
    DispatchResult.config_executor args
  else
    DispatchResult.no_op args

/-- Claim C4 counterexample: a validated Direct-flow bag dispatched against
a non-item context does NOT produce any dispatch-time error: `exec_command`
completes silently without invoking the Direct Executor (a no-op result;
no error value exists anywhere in the dispatcher). -/
theorem dispatch_non_item_counterexample :
    validate_import_args
        ⟨some ["ws1.Workspace/nb1.Notebook"], some ["/path/to/input"], none, none, none, none⟩ =
      Except.ok
        ⟨some ["ws1.Workspace/nb1.Notebook"], some ["/path/to/input"], none, none, none, none⟩ ∧
    exec_command (fun l => l)
        ⟨some ["ws1.Workspace/nb1.Notebook"], some ["/path/to/input"], none, none, none, none⟩
        (FabricElement.workspace "ws1") =
      DispatchResult.no_op
        ⟨some ["ws1.Workspace/nb1.Notebook"], some ["/path/to/input"], none, none, none, none⟩ :=
  ⟨rfl, rfl⟩

/-- Claim C4 (amended): for every validated Direct-flow bag dispatched
against a context that is not a single item, `exec_command` invokes no
executor and raises no error: it normalizes `input` and returns silently. -/
theorem dispatch_non_item_silent_noop
    (process_nargs : List String → List String)
    (args : Args) (context : FabricElement)
    (hp : truthyList args.path = true) (hi : truthyList args.input = true)
    (hctx : isItem context = false) :
    exec_command process_nargs args context =
      DispatchResult.no_op
        (set_input args (some (process_nargs (args.input.getD [])))) := by
  simp [exec_command, hp, hi, hctx]

/-- Claim C4 (amended) witness: concrete Direct-flow bag against a
workspace context yields the silent no-op with normalized input. -/
theorem dispatch_non_item_silent_noop_witness :
    exec_command (fun l => l)
        ⟨some ["ws1.Workspace/nb1.Notebook"], some ["/path/to/input"], none, none, none, none⟩
        (FabricElement.workspace "ws1") =
      DispatchResult.no_op
        (set_input
          ⟨some ["ws1.Workspace/nb1.Notebook"], some ["/path/to/input"], none, none, none, none⟩
          (some ((fun l => l)
            ((⟨some ["ws1.Workspace/nb1.Notebook"], some ["/path/to/input"],
               none, none, none, none⟩ : Args).input.getD [])))) :=
  dispatch_non_item_silent_noop (fun l => l)
    ⟨some ["ws1.Workspace/nb1.Notebook"], some ["/path/to/input"], none, none, none, none⟩
    (FabricElement.workspace "ws1") (by decide) (by decide) (by decide)

/-- Claim C10: when `exec_command` runs the Direct flow (both `path` and
`input` non-empty, context a single item) the resulting bag passed to the
Direct Executor differs from the original only in `input`, which holds the
normalized list; and when it runs the Config flow (Direct shape absent,
`config_file` non-empty) the bag reaches the Config Executor with every
field unchanged. -/
theorem dispatch_frame_effects
    (process_nargs : List String → List String)
    (args : Args) (context : FabricElement) :
    (truthyList args.path = true → truthyList args.input = true →
     isItem context = true →
      ∃ args1, exec_command process_nargs args context =
          DispatchResult.direct_executor context args1 ∧
        args1.input = some (process_nargs (args.input.getD [])) ∧
        args1.path = args.path ∧ args1.format = args.format ∧
        args1.config_file = args.config_file ∧ args1.env = args.env ∧
        args1.params = args.params) ∧
    (¬(truthyList args.path = true ∧ truthyList args.input = true) →
     truthyStr args.config_file = true →
      exec_command process_nargs args context =
        DispatchResult.config_executor args) := by
  constructor
  · intro hp hi hctx
    refine ⟨set_input args (some (process_nargs (args.input.getD []))),
      ?_, rfl, rfl, rfl, rfl, rfl, rfl⟩
    simp [exec_command, hp, hi, hctx]
  · intro hno hcf
    have hand : (truthyList args.path && truthyList args.input) = false := by
      rw [← Bool.not_eq_true, Bool.and_eq_true]
      exact hno
    simp [exec_command, hand, hcf]

/-- Claim C10 witness: concrete Direct-flow dispatch against an item mutates
only `input`, and concrete Config-flow dispatch passes the bag unchanged. -/
theorem dispatch_frame_effects_witness :
    (∃ args1, exec_command (fun l => l)
          ⟨some ["ws1.Workspace/nb1.Notebook"], some ["/path/to/input"], none, none, none, none⟩
          (FabricElement.item "nb1") =
        DispatchResult.direct_executor (FabricElement.item "nb1") args1 ∧
      args1.input = some ((fun l => l)
        ((⟨some ["ws1.Workspace/nb1.Notebook"], some ["/path/to/input"],
           none, none, none, none⟩ : Args).input.getD [])) ∧
      args1.path = (⟨some ["ws1.Workspace/nb1.Notebook"], some ["/path/to/input"],
          none, none, none, none⟩ : Args).path ∧
      args1.format = (⟨some ["ws1.Workspace/nb1.Notebook"], some ["/path/to/input"],
          none, none, none, none⟩ : Args).format ∧
      args1.config_file = (⟨some ["ws1.Workspace/nb1.Notebook"], some ["/path/to/input"],
          none, none, none, none⟩ : Args).config_file ∧
      args1.env = (⟨some ["ws1.Workspace/nb1.Notebook"], some ["/path/to/input"],
          none, none, none, none⟩ : Args).env ∧
      args1.params = (⟨some ["ws1.Workspace/nb1.Notebook"], some ["/path/to/input"],
          none, none, none, none⟩ : Args).params) ∧
    exec_command (fun l => l)
        ⟨none, none, none, some "/path/to/config.yml", some "production", none⟩
        (FabricElement.workspace "ws1") =
      DispatchResult.config_executor
        ⟨none, none, none, some "/path/to/config.yml", some "production", none⟩ :=
  ⟨(dispatch_frame_effects (fun l => l)
      ⟨some ["ws1.Workspace/nb1.Notebook"], some ["/path/to/input"], none, none, none, none⟩
      (FabricElement.item "nb1")).1 (by decide) (by decide) (by decide),
   (dispatch_frame_effects (fun l => l)
      ⟨none, none, none, some "/path/to/config.yml", some "production", none⟩
      (FabricElement.workspace "ws1")).2 (by decide) (by decide)⟩

end FabricCli
